import Mathlib

/-!
Verification of the `virtuallab_workflow` package: the workflow state and its
reducer-based merge (`state.py`), the classification node and its router
(`classifier.py`), and the specialist / human-review nodes with their
post-review router (`nodes.py`).

Modelling conventions:
* Python dict-valued state is a structure; a field read with
  `state.get(key, default)` in the source is an `Option` field read with
  `Option.getD`.
* External capability calls (the classifier LLM call, the deliberation
  meeting) are parameters of type `Except String _`: `Except.error e` models
  the call raising an exception with message `e`, so the source's
  `try/except` blocks become a `match` on that parameter.
* Opaque record values (transcript turns, team-member dicts) are modelled as
  `String`.
* Floats appear only as the literal constants `0.7` and `0.0` carried by node
  updates; they are never computed with.
-/

namespace VirtualLab

/-- A transcript turn: an opaque record produced by the deliberation
capability (`list[dict]` in `state.py`); modelled as an opaque string. -/
abbrev Turn := String

/-- The workflow state, after `ResearchStateAnnotated` in `state.py`
(the schema carrying the reducer annotations; it has the same fields as
`ResearchState` minus the unused consensus extras).  `Option` fields model
keys that may be absent from the Python dict and are only ever read through
`state.get(key, default)` in the source. -/
structure ResearchState where
  question : String
  question_type : Option String
  question_complexity : Option String
  team_composition : List String
  team_size : Option Nat
  meeting_transcript : List Turn
  num_rounds : Option Nat
  requires_human_approval : Option Bool
  human_feedback : Option String
  approval_status : Option String
  final_answer : String
  confidence_score : Option Float
  references : List String
  execution_path : List String
  errors : List String
deriving Repr

/-- A partial state update: the dict a node returns.  `none` means the key is
absent from the returned dict; `some v` means the key is present with value
`v` (for fields whose stored value is itself optional, the stored value is an
inner `Option`). -/
structure StateUpdate where
  question : Option String := none
  question_type : Option (Option String) := none
  question_complexity : Option (Option String) := none
  team_composition : Option (List String) := none
  team_size : Option Nat := none
  meeting_transcript : Option (List Turn) := none
  num_rounds : Option Nat := none
  requires_human_approval : Option Bool := none
  human_feedback : Option (Option String) := none
  approval_status : Option (Option String) := none
  final_answer : Option String := none
  confidence_score : Option (Option Float) := none
  references : Option (List String) := none
  execution_path : Option (List String) := none
  errors : Option (List String) := none
deriving Repr

/-- `update_execution_path` from `state.py`: the declared reducer for the
`execution_path` channel, appending one node name. -/
def update_execution_path (current : List String) (update : String) : List String :=
  current ++ [update]

/-- The reducer annotated on `errors` in `ResearchStateAnnotated`
(`lambda x, y: x + y`): list concatenation. -/
def errors_reducer (x y : List String) : List String :=
  x ++ y

/-- The graph framework's channel merge over `ResearchStateAnnotated` (the
graph builder itself lives outside the reviewed sources): every field present
in the update is combined with that field's declared reducer —
`update_execution_path` for `execution_path` (applied once per listed name,
per its declared `(list[str], str)` signature), `errors_reducer` for
`errors` — and plainly overwrites the field for every other present field;
fields absent from the update are left untouched. -/
def applyUpdate (s : ResearchState) (u : StateUpdate) : ResearchState where
  question := u.question.getD s.question
  question_type := u.question_type.getD s.question_type
  question_complexity := u.question_complexity.getD s.question_complexity
  team_composition := u.team_composition.getD s.team_composition
  team_size :=
    match u.team_size with
    | none => s.team_size
    | some v => some v
  meeting_transcript := u.meeting_transcript.getD s.meeting_transcript
  num_rounds :=
    match u.num_rounds with
    | none => s.num_rounds
    | some v => some v
  requires_human_approval :=
    match u.requires_human_approval with
    | none => s.requires_human_approval
    | some v => some v
  human_feedback := u.human_feedback.getD s.human_feedback
  approval_status := u.approval_status.getD s.approval_status
  final_answer := u.final_answer.getD s.final_answer
  confidence_score := u.confidence_score.getD s.confidence_score
  references := u.references.getD s.references
  execution_path :=
    match u.execution_path with
    | none => s.execution_path
    | some names => names.foldl update_execution_path s.execution_path
  errors :=
    match u.errors with
    | none => s.errors
    | some new => errors_reducer s.errors new

/-- The response-parsing loop of `classify_question_node` in `classifier.py`:
starting from the defaults `("general", "moderate")`, scan the stripped lines
of the response text; a `TYPE:` line whose value is one of the four question
types sets the type, a `COMPLEXITY:` line whose value is one of the three
levels sets the complexity. -/
def parse_classification (text : String) : String × String :=
  (text.trim.splitOn "\n").foldl
    (fun acc rawLine =>
      let line := rawLine.trim
      if line.startsWith "TYPE:" then
        let type_value := ((line.splitOn "TYPE:").getD 1 "").trim.toLower
        if type_value ∈ ["wet_lab", "computational", "literature", "general"] then
          (type_value, acc.2)
        else acc
      else if line.startsWith "COMPLEXITY:" then
        let complexity_value := ((line.splitOn "COMPLEXITY:").getD 1 "").trim.toLower
        if complexity_value ∈ ["simple", "moderate", "complex"] then
          (acc.1, complexity_value)
        else acc
      else acc)
    ("general", "moderate")

/-- `classify_question_node` from `classifier.py`.  `response` is the outcome
of the LLM classification call (`client.create_message` followed by
`get_response_text`): `Except.error e` models the call raising an exception
with message `e`, taking the source's `except` branch with its safe-default
fallback. -/
def classify_question_node (_s : ResearchState) (response : Except String String) :
    StateUpdate :=
  match response with
  | Except.ok text =>
    let parsed := parse_classification text
    let question_type := parsed.1
    let complexity := parsed.2
    let sizes : Nat × Nat :=
      if complexity = "simple" then (2, 1)
      else if complexity = "moderate" then (3, 2)
      else (4, 3)
    { question_type := some (some question_type)
      question_complexity := some (some complexity)
      team_size := some sizes.1
      num_rounds := some sizes.2
      execution_path := some ["classifier"] }
  | Except.error e =>
    { question_type := some (some "general")
      question_complexity := some (some "moderate")
      team_size := some 3
      num_rounds := some 2
      execution_path := some ["classifier"]
      errors := some ["Classification error: " ++ e] }

/-- The `routing_map` dict literal inside `route_by_question_type`. -/
def routing_map : List (String × String) :=
  [("wet_lab", "virtual_lab_wetlab"),
   ("computational", "virtual_lab_computational"),
   ("literature", "virtual_lab_literature"),
   ("general", "virtual_lab_general")]

/-- `route_by_question_type` from `classifier.py`: look up
`state.get("question_type", "general")` in `routing_map`, with
`"virtual_lab_general"` as the lookup default. -/
def route_by_question_type (s : ResearchState) : String :=
  let question_type := s.question_type.getD "general"
  (routing_map.lookup question_type).getD "virtual_lab_general"

/-- The result of a deliberation meeting (`_create_virtual_lab` /
`VirtualLabMeeting.run_meeting`): one opaque value, stored by the specialist
nodes into both `meeting_transcript` and `final_answer`. -/
abbrev MeetingResult := String

/-- The transcript value a specialist node stores on success: the opaque
meeting result, viewed as transcript content (a single opaque turn). -/
def transcript_of_result (r : MeetingResult) : List Turn :=
  [r]

/-- The transcript value a specialist node stores on failure: the source
writes the empty string `""`, i.e. a transcript with no turns. -/
def empty_transcript : List Turn :=
  []

/-- `virtual_lab_wetlab_node` from `nodes.py`.  `result` is the outcome of
the deliberation capability (`_create_virtual_lab`): `Except.error e` models
it raising an exception with message `e`. -/
def virtual_lab_wetlab_node (s : ResearchState) (result : Except String MeetingResult) :
    StateUpdate :=
  let team_size := s.team_size.getD 3
  match result with
  | Except.ok r =>
    { meeting_transcript := some (transcript_of_result r)
      final_answer := some r
      confidence_score := some (some 0.7)
      team_composition := some (["Experimental Design", "Molecular Biology", "Cell Biology"].take team_size)
      execution_path := some ["virtual_lab_wetlab"] }
  | Except.error e =>
    { meeting_transcript := some empty_transcript
      final_answer := some ("Error executing wet lab meeting: " ++ e)
      confidence_score := some (some 0.0)
      team_composition := some []
      execution_path := some ["virtual_lab_wetlab"]
      errors := some [e] }

/-- `virtual_lab_computational_node` from `nodes.py`. -/
def virtual_lab_computational_node (s : ResearchState) (result : Except String MeetingResult) :
    StateUpdate :=
  let team_size := s.team_size.getD 3
  match result with
  | Except.ok r =>
    { meeting_transcript := some (transcript_of_result r)
      final_answer := some r
      confidence_score := some (some 0.7)
      team_composition := some (["Bioinformatics", "Biostatistics", "Data Science"].take team_size)
      execution_path := some ["virtual_lab_computational"] }
  | Except.error e =>
    { meeting_transcript := some empty_transcript
      final_answer := some ("Error executing computational meeting: " ++ e)
      confidence_score := some (some 0.0)
      team_composition := some []
      execution_path := some ["virtual_lab_computational"]
      errors := some [e] }

/-- `virtual_lab_literature_node` from `nodes.py`. -/
def virtual_lab_literature_node (s : ResearchState) (result : Except String MeetingResult) :
    StateUpdate :=
  let team_size := s.team_size.getD 3
  match result with
  | Except.ok r =>
    { meeting_transcript := some (transcript_of_result r)
      final_answer := some r
      confidence_score := some (some 0.7)
      team_composition := some (["Literature Review", "Mechanism Expert", "Clinical Translation"].take team_size)
      execution_path := some ["virtual_lab_literature"] }
  | Except.error e =>
    { meeting_transcript := some empty_transcript
      final_answer := some ("Error executing literature meeting: " ++ e)
      confidence_score := some (some 0.0)
      team_composition := some []
      execution_path := some ["virtual_lab_literature"]
      errors := some [e] }

/-- `virtual_lab_general_node` from `nodes.py`. -/
def virtual_lab_general_node (s : ResearchState) (result : Except String MeetingResult) :
    StateUpdate :=
  let team_size := s.team_size.getD 3
  match result with
  | Except.ok r =>
    { meeting_transcript := some (transcript_of_result r)
      final_answer := some r
      confidence_score := some (some 0.7)
      team_composition := some (["Generalist Researcher", "Methodology Expert", "Integration Specialist"].take team_size)
      execution_path := some ["virtual_lab_general"] }
  | Except.error e =>
    { meeting_transcript := some empty_transcript
      final_answer := some ("Error executing general meeting: " ++ e)
      confidence_score := some (some 0.0)
      team_composition := some []
      execution_path := some ["virtual_lab_general"]
      errors := some [e] }

/-- `human_review_node` from `nodes.py`: a pass-through node that records the
review outcome — `state.get("human_feedback")` and
`state.get("approval_status", "approved")` — and appends itself to the
execution path. -/
def human_review_node (s : ResearchState) : StateUpdate :=
  let human_feedback := s.human_feedback
  let approval_status := s.approval_status.getD "approved"
  { execution_path := some ["human_review"]
    approval_status := some (some approval_status)
    human_feedback := some human_feedback }

/-- `should_continue_after_review` from `nodes.py`: reads
`state.get("approval_status", "approved")`; `"approved"` ends, the literal
string `"revise"` revises, everything else defaults to `"end"`. -/
def should_continue_after_review (s : ResearchState) : String :=
  let approval_status := s.approval_status.getD "approved"
  if approval_status = "approved" then "end"
  else if approval_status = "revise" then "revise"
  else "end"

/-- A freshly created workflow state: only `question` is set
(the lifecycle in the spec: created at submission time with only the
question populated). -/
def initialState (q : String) : ResearchState where
  question := q
  question_type := none
  question_complexity := none
  team_composition := []
  team_size := none
  meeting_transcript := []
  num_rounds := none
  requires_human_approval := none
  human_feedback := none
  approval_status := none
  final_answer := ""
  confidence_score := none
  references := []
  execution_path := []
  errors := []

/-- Folding the declared `execution_path` reducer over a list of names
appends exactly those names, in order. -/
theorem foldl_update_execution_path (names : List String) (init : List String) :
    names.foldl update_execution_path init = init ++ names := by
  induction names generalizing init with
  | nil => simp
  | cons n rest ih =>
    simp [List.foldl, update_execution_path, ih]

/-- Looking up a question type outside the four mapped keys in `routing_map`
finds nothing, so the dict-lookup default applies. -/
theorem routing_map_lookup_eq_none (t : String)
    (h : t ∉ ["wet_lab", "computational", "literature", "general"]) :
    routing_map.lookup t = none := by
  simp only [List.mem_cons, List.not_mem_nil, or_false, not_or] at h
  obtain ⟨h1, h2, h3, h4⟩ := h
  simp only [routing_map, List.lookup]
  rw [beq_eq_false_iff_ne.mpr h1, beq_eq_false_iff_ne.mpr h2,
      beq_eq_false_iff_ne.mpr h3, beq_eq_false_iff_ne.mpr h4]

/-- A state whose question type is the literal `general` routes to the
general specialist node. -/
theorem route_general_of_question_type (s : ResearchState)
    (h : s.question_type = some "general") :
    route_by_question_type s = "virtual_lab_general" := by
  unfold route_by_question_type
  rw [h]
  decide

/-- The post-review router only ever produces `end` or `revise`. -/
theorem should_continue_after_review_total (t : ResearchState) :
    should_continue_after_review t ∈ ["end", "revise"] := by
  unfold should_continue_after_review
  by_cases h1 : t.approval_status.getD "approved" = "approved"
  · simp [h1]
  · by_cases h2 : t.approval_status.getD "approved" = "revise"
    · simp [h1, h2]
    · simp [h1, h2]

/-- C1 (code evaluated at the failing input): on a state whose approval
status is the declared literal `revision_requested`, the post-review router
returns `end`, not `revise`; its `revise` branch fires only on the string
`"revise"`, which is outside the values `state.py` declares for
`approval_status`. -/
theorem should_continue_after_review_on_revision_requested :
    should_continue_after_review
      { initialState "q" with approval_status := some "revision_requested" } = "end"
    ∧ should_continue_after_review
      { initialState "q" with approval_status := some "revise" } = "revise" := by
  exact ⟨rfl, rfl⟩

/-- C6: the classification router maps each of the four declared question
types to its specialist node, sends a missing or unrecognized question type
to `virtual_lab_general`, and always lands in one of the four specialist
node names. -/
theorem route_by_question_type_cases :
    (∀ s : ResearchState, s.question_type = some "wet_lab" →
        route_by_question_type s = "virtual_lab_wetlab")
  ∧ (∀ s : ResearchState, s.question_type = some "computational" →
        route_by_question_type s = "virtual_lab_computational")
  ∧ (∀ s : ResearchState, s.question_type = some "literature" →
        route_by_question_type s = "virtual_lab_literature")
  ∧ (∀ s : ResearchState, s.question_type = some "general" →
        route_by_question_type s = "virtual_lab_general")
  ∧ (∀ s : ResearchState, s.question_type = none →
        route_by_question_type s = "virtual_lab_general")
  ∧ (∀ (s : ResearchState) (t : String), s.question_type = some t →
        t ∉ ["wet_lab", "computational", "literature", "general"] →
        route_by_question_type s = "virtual_lab_general")
  ∧ (∀ s : ResearchState,
        route_by_question_type s ∈
          ["virtual_lab_wetlab", "virtual_lab_computational",
           "virtual_lab_literature", "virtual_lab_general"]) := by
  refine ⟨?_, ?_, ?_, ?_, ?_, ?_, ?_⟩
  · intro s h; unfold route_by_question_type; rw [h]; decide
  · intro s h; unfold route_by_question_type; rw [h]; decide
  · intro s h; unfold route_by_question_type; rw [h]; decide
  · intro s h; unfold route_by_question_type; rw [h]; decide
  · intro s h; unfold route_by_question_type; rw [h]; decide
  · intro s t h hmem
    unfold route_by_question_type
    rw [h]
    simp [routing_map_lookup_eq_none t hmem]
  · intro s
    unfold route_by_question_type
    cases hq : s.question_type with
    | none => decide
    | some t =>
      by_cases hmem : t ∈ ["wet_lab", "computational", "literature", "general"]
      · simp only [List.mem_cons, List.not_mem_nil, or_false] at hmem
        rcases hmem with h | h | h | h <;> subst h <;> decide
      · simp [routing_map_lookup_eq_none t hmem]

/-- Closed instantiation of `route_by_question_type_cases`, each hypothesis
discharged on a concrete state. -/
theorem route_by_question_type_cases_witness :
    route_by_question_type
      { initialState "q" with question_type := some "wet_lab" } = "virtual_lab_wetlab"
    ∧ route_by_question_type
      { initialState "q" with question_type := some "computational" } = "virtual_lab_computational"
    ∧ route_by_question_type
      { initialState "q" with question_type := some "literature" } = "virtual_lab_literature"
    ∧ route_by_question_type
      { initialState "q" with question_type := some "general" } = "virtual_lab_general"
    ∧ route_by_question_type (initialState "q") = "virtual_lab_general"
    ∧ route_by_question_type
      { initialState "q" with question_type := some "quantum" } = "virtual_lab_general"
    ∧ route_by_question_type (initialState "q") ∈
        ["virtual_lab_wetlab", "virtual_lab_computational",
         "virtual_lab_literature", "virtual_lab_general"] :=
  ⟨route_by_question_type_cases.1 _ rfl,
   route_by_question_type_cases.2.1 _ rfl,
   route_by_question_type_cases.2.2.1 _ rfl,
   route_by_question_type_cases.2.2.2.1 _ rfl,
   route_by_question_type_cases.2.2.2.2.1 _ rfl,
   route_by_question_type_cases.2.2.2.2.2.1 _ "quantum" rfl (by decide),
   route_by_question_type_cases.2.2.2.2.2.2 _⟩

/-- C9: each router is a function of the single state field it branches on —
two states agreeing on `question_type` (resp. `approval_status`) get the same
route, so identical states always get identical routes and no hidden input is
consulted. -/
theorem routers_read_only_their_field :
    (∀ s t : ResearchState, s.question_type = t.question_type →
        route_by_question_type s = route_by_question_type t)
  ∧ (∀ s t : ResearchState, s.approval_status = t.approval_status →
        should_continue_after_review s = should_continue_after_review t) := by
  constructor
  · intro s t h; unfold route_by_question_type; rw [h]
  · intro s t h; unfold should_continue_after_review; rw [h]

/-- Closed instantiation of `routers_read_only_their_field` on two concrete
states that agree on the routed fields. -/
theorem routers_read_only_their_field_witness :
    route_by_question_type (initialState "a") = route_by_question_type (initialState "b")
    ∧ should_continue_after_review (initialState "a")
        = should_continue_after_review (initialState "b") :=
  ⟨routers_read_only_their_field.1 (initialState "a") (initialState "b") rfl,
   routers_read_only_their_field.2 (initialState "a") (initialState "b") rfl⟩

/-- C10: when `approval_status` is absent, the human-review node's update
records the auto-approve default `approved`, and the post-review router on a
state with absent `approval_status` returns `end`. -/
theorem human_review_auto_approves_when_absent (s : ResearchState)
    (h : s.approval_status = none) :
    (human_review_node s).approval_status = some (some "approved")
    ∧ should_continue_after_review s = "end" := by
  unfold human_review_node should_continue_after_review
  rw [h]
  exact ⟨rfl, rfl⟩

/-- Closed instantiation of `human_review_auto_approves_when_absent` on the
fresh state, whose approval status is absent. -/
theorem human_review_auto_approves_when_absent_witness :
    (human_review_node (initialState "q")).approval_status = some (some "approved")
    ∧ should_continue_after_review (initialState "q") = "end" :=
  human_review_auto_approves_when_absent (initialState "q") rfl

/-- C3: when the classifier capability call fails, the classification node's
update carries the safe defaults — question type `general`, complexity
`moderate`, team size 3, two rounds — and the classification router applied
to the merged state returns the general specialist node. -/
theorem classification_failure_falls_back_to_general (s : ResearchState) (e : String) :
    (classify_question_node s (Except.error e)).question_type = some (some "general")
    ∧ (classify_question_node s (Except.error e)).question_complexity = some (some "moderate")
    ∧ (classify_question_node s (Except.error e)).team_size = some 3
    ∧ (classify_question_node s (Except.error e)).num_rounds = some 2
    ∧ route_by_question_type (applyUpdate s (classify_question_node s (Except.error e)))
        = "virtual_lab_general" := by
  refine ⟨rfl, rfl, rfl, rfl, ?_⟩
  exact route_general_of_question_type _ rfl

/-- C4: when the deliberation capability raises during a specialist node,
the node's update carries exactly one new `errors` entry (so the merged
`errors` grows by exactly that entry), confidence `0.0`, and a final answer
of the form `"Error executing <team> meeting: <message>"`. -/
theorem specialist_failure_error_update (s : ResearchState) (e : String) :
    ((virtual_lab_wetlab_node s (Except.error e)).errors = some [e]
      ∧ (virtual_lab_wetlab_node s (Except.error e)).confidence_score = some (some 0.0)
      ∧ (virtual_lab_wetlab_node s (Except.error e)).final_answer
          = some ("Error executing wet lab meeting: " ++ e)
      ∧ (applyUpdate s (virtual_lab_wetlab_node s (Except.error e))).errors
          = s.errors ++ [e])
    ∧ ((virtual_lab_computational_node s (Except.error e)).errors = some [e]
      ∧ (virtual_lab_computational_node s (Except.error e)).confidence_score = some (some 0.0)
      ∧ (virtual_lab_computational_node s (Except.error e)).final_answer
          = some ("Error executing computational meeting: " ++ e)
      ∧ (applyUpdate s (virtual_lab_computational_node s (Except.error e))).errors
          = s.errors ++ [e])
    ∧ ((virtual_lab_literature_node s (Except.error e)).errors = some [e]
      ∧ (virtual_lab_literature_node s (Except.error e)).confidence_score = some (some 0.0)
      ∧ (virtual_lab_literature_node s (Except.error e)).final_answer
          = some ("Error executing literature meeting: " ++ e)
      ∧ (applyUpdate s (virtual_lab_literature_node s (Except.error e))).errors
          = s.errors ++ [e])
    ∧ ((virtual_lab_general_node s (Except.error e)).errors = some [e]
      ∧ (virtual_lab_general_node s (Except.error e)).confidence_score = some (some 0.0)
      ∧ (virtual_lab_general_node s (Except.error e)).final_answer
          = some ("Error executing general meeting: " ++ e)
      ∧ (applyUpdate s (virtual_lab_general_node s (Except.error e))).errors
          = s.errors ++ [e]) :=
  ⟨⟨rfl, rfl, rfl, rfl⟩, ⟨rfl, rfl, rfl, rfl⟩, ⟨rfl, rfl, rfl, rfl⟩, ⟨rfl, rfl, rfl, rfl⟩⟩

/-- C7: capability failures stay contained in the node - the node (a total
function of the capability outcome, modelling the source's broad
`try/except`) returns an update with an error entry, the classification
fallback still sets the field its router branches on, and both routers
produce a defined route on the resulting states (the post-review router's
field is supplied by the intervening human-review node, and both routers
read their field with a safe default). -/
theorem node_failures_are_contained (s : ResearchState) (e : String) :
    (classify_question_node s (Except.error e)).errors
        = some ["Classification error: " ++ e]
    ∧ (classify_question_node s (Except.error e)).question_type ≠ some none
    ∧ (classify_question_node s (Except.error e)).question_type ≠ none
    ∧ route_by_question_type (applyUpdate s (classify_question_node s (Except.error e)))
        ∈ ["virtual_lab_wetlab", "virtual_lab_computational",
           "virtual_lab_literature", "virtual_lab_general"]
    ∧ (virtual_lab_wetlab_node s (Except.error e)).errors = some [e]
    ∧ (virtual_lab_computational_node s (Except.error e)).errors = some [e]
    ∧ (virtual_lab_literature_node s (Except.error e)).errors = some [e]
    ∧ (virtual_lab_general_node s (Except.error e)).errors = some [e]
    ∧ (∀ t : ResearchState, should_continue_after_review t ∈ ["end", "revise"])
    ∧ (applyUpdate (applyUpdate s (virtual_lab_wetlab_node s (Except.error e)))
          (human_review_node
            (applyUpdate s (virtual_lab_wetlab_node s (Except.error e))))).approval_status
        ≠ none := by
  refine ⟨rfl, by simp [classify_question_node], by simp [classify_question_node], ?_, rfl, rfl, rfl, rfl,
    fun t => should_continue_after_review_total t, ?_⟩
  · rw [route_general_of_question_type _ rfl]
    decide
  · have hproj :
        (applyUpdate (applyUpdate s (virtual_lab_wetlab_node s (Except.error e)))
            (human_review_node
              (applyUpdate s (virtual_lab_wetlab_node s (Except.error e))))).approval_status
          = some ((applyUpdate s
              (virtual_lab_wetlab_node s (Except.error e))).approval_status.getD "approved") :=
      rfl
    rw [hproj]
    simp

/-- C8: every node execution - classifier, the four specialists and the
human-review node, on both the capability-success and the capability-failure
path - puts exactly the singleton of its own node name into
`execution_path`, and merging such an update appends exactly one entry, so
the path length grows by one per node execution. -/
theorem every_node_appends_exactly_its_name (s : ResearchState)
    (r : Except String String) :
    (classify_question_node s r).execution_path = some ["classifier"]
    ∧ (virtual_lab_wetlab_node s r).execution_path = some ["virtual_lab_wetlab"]
    ∧ (virtual_lab_computational_node s r).execution_path = some ["virtual_lab_computational"]
    ∧ (virtual_lab_literature_node s r).execution_path = some ["virtual_lab_literature"]
    ∧ (virtual_lab_general_node s r).execution_path = some ["virtual_lab_general"]
    ∧ (human_review_node s).execution_path = some ["human_review"]
    ∧ (∀ (u : StateUpdate) (nm : String), u.execution_path = some [nm] →
        (applyUpdate s u).execution_path = s.execution_path ++ [nm]
        ∧ (applyUpdate s u).execution_path.length = s.execution_path.length + 1) := by
  refine ⟨?_, ?_, ?_, ?_, ?_, rfl, ?_⟩
  · cases r <;> rfl
  · cases r <;> rfl
  · cases r <;> rfl
  · cases r <;> rfl
  · cases r <;> rfl
  · intro u nm h
    have hproj : (applyUpdate s u).execution_path =
        match u.execution_path with
        | none => s.execution_path
        | some names => names.foldl update_execution_path s.execution_path := rfl
    have hpath : (applyUpdate s u).execution_path = s.execution_path ++ [nm] := by
      rw [hproj, h]
      exact foldl_update_execution_path [nm] s.execution_path
    exact ⟨hpath, by rw [hpath]; simp⟩

/-- Closed instantiation of `every_node_appends_exactly_its_name` at a fresh
state and a failing capability, the merge hypothesis discharged on the
human-review node's own update. -/
theorem every_node_appends_exactly_its_name_witness :
    (classify_question_node (initialState "q") (Except.error "boom")).execution_path
        = some ["classifier"]
    ∧ (applyUpdate (initialState "q")
        (human_review_node (initialState "q"))).execution_path = ["human_review"] :=
  ⟨(every_node_appends_exactly_its_name (initialState "q") (Except.error "boom")).1,
   ((every_node_appends_exactly_its_name (initialState "q") (Except.error "boom")).2.2.2.2.2.2
      (human_review_node (initialState "q")) "human_review" rfl).1⟩

/-- C2 (counterexample): a partial update that carries `meeting_transcript`
replaces the stored transcript instead of appending to it — the claim's
append reducer for the transcript would have produced
`["turn0", "turn1"]`. -/
theorem transcript_update_overwrites_counterexample :
    (applyUpdate { initialState "q" with meeting_transcript := ["turn0"] }
        { meeting_transcript := some ["turn1"] }).meeting_transcript = ["turn1"]
    ∧ (applyUpdate { initialState "q" with meeting_transcript := ["turn0"] }
        { meeting_transcript := some ["turn1"] }).meeting_transcript
        ≠ ["turn0", "turn1"] :=
  ⟨rfl, by decide⟩

/-- C2 (amended): each field present in an update is merged by its field
reducer — append for `execution_path` and for `errors`; overwrite for every
other present field, `meeting_transcript` included — and every absent field
is left unchanged. -/
theorem applyUpdate_field_semantics (s : ResearchState) (u : StateUpdate) :
    (∀ names, u.execution_path = some names →
        (applyUpdate s u).execution_path = s.execution_path ++ names)
    ∧ (∀ new, u.errors = some new → (applyUpdate s u).errors = s.errors ++ new)
    ∧ (∀ v, u.meeting_transcript = some v → (applyUpdate s u).meeting_transcript = v)
    ∧ (∀ v, u.question = some v → (applyUpdate s u).question = v)
    ∧ (∀ v, u.question_type = some v → (applyUpdate s u).question_type = v)
    ∧ (∀ v, u.question_complexity = some v → (applyUpdate s u).question_complexity = v)
    ∧ (∀ v, u.team_composition = some v → (applyUpdate s u).team_composition = v)
    ∧ (∀ v, u.team_size = some v → (applyUpdate s u).team_size = some v)
    ∧ (∀ v, u.num_rounds = some v → (applyUpdate s u).num_rounds = some v)
    ∧ (∀ v, u.requires_human_approval = some v →
        (applyUpdate s u).requires_human_approval = some v)
    ∧ (∀ v, u.human_feedback = some v → (applyUpdate s u).human_feedback = v)
    ∧ (∀ v, u.approval_status = some v → (applyUpdate s u).approval_status = v)
    ∧ (∀ v, u.final_answer = some v → (applyUpdate s u).final_answer = v)
    ∧ (∀ v, u.confidence_score = some v → (applyUpdate s u).confidence_score = v)
    ∧ (∀ v, u.references = some v → (applyUpdate s u).references = v)
    ∧ (u.execution_path = none → (applyUpdate s u).execution_path = s.execution_path)
    ∧ (u.errors = none → (applyUpdate s u).errors = s.errors)
    ∧ (u.meeting_transcript = none →
        (applyUpdate s u).meeting_transcript = s.meeting_transcript)
    ∧ (u.question = none → (applyUpdate s u).question = s.question)
    ∧ (u.question_type = none → (applyUpdate s u).question_type = s.question_type)
    ∧ (u.question_complexity = none →
        (applyUpdate s u).question_complexity = s.question_complexity)
    ∧ (u.team_composition = none →
        (applyUpdate s u).team_composition = s.team_composition)
    ∧ (u.team_size = none → (applyUpdate s u).team_size = s.team_size)
    ∧ (u.num_rounds = none → (applyUpdate s u).num_rounds = s.num_rounds)
    ∧ (u.requires_human_approval = none →
        (applyUpdate s u).requires_human_approval = s.requires_human_approval)
    ∧ (u.human_feedback = none → (applyUpdate s u).human_feedback = s.human_feedback)
    ∧ (u.approval_status = none → (applyUpdate s u).approval_status = s.approval_status)
    ∧ (u.final_answer = none → (applyUpdate s u).final_answer = s.final_answer)
    ∧ (u.confidence_score = none →
        (applyUpdate s u).confidence_score = s.confidence_score)
    ∧ (u.references = none → (applyUpdate s u).references = s.references) := by
  refine ⟨?_, ?_, ?_, ?_, ?_, ?_, ?_, ?_, ?_, ?_, ?_, ?_, ?_, ?_, ?_,
    ?_, ?_, ?_, ?_, ?_, ?_, ?_, ?_, ?_, ?_, ?_, ?_, ?_, ?_, ?_⟩
  all_goals intros
  all_goals simp_all [applyUpdate, foldl_update_execution_path, errors_reducer]

/-- A node-style update touching one field of each reducer kind, used to
instantiate the merge semantics on concrete data. -/
def sampleUpdate : StateUpdate :=
  { execution_path := some ["node_a"]
    errors := some ["err_a"]
    meeting_transcript := some ["turn_a"] }

/-- Closed instantiation of `applyUpdate_field_semantics` on `sampleUpdate`:
the two append-reduced fields, the overwritten transcript, and one untouched
absent field. -/
theorem applyUpdate_field_semantics_witness :
    (applyUpdate (initialState "q") sampleUpdate).execution_path = ["node_a"]
    ∧ (applyUpdate (initialState "q") sampleUpdate).errors = ["err_a"]
    ∧ (applyUpdate (initialState "q") sampleUpdate).meeting_transcript = ["turn_a"]
    ∧ (applyUpdate (initialState "q") sampleUpdate).final_answer
        = (initialState "q").final_answer :=
  ⟨(applyUpdate_field_semantics (initialState "q") sampleUpdate).1 ["node_a"] rfl,
   (applyUpdate_field_semantics (initialState "q") sampleUpdate).2.1 ["err_a"] rfl,
   (applyUpdate_field_semantics (initialState "q") sampleUpdate).2.2.1 ["turn_a"] rfl,
   (applyUpdate_field_semantics (initialState "q") sampleUpdate).2.2.2.2.2.2.2.2.2.2.2.2.2.2.2.2.2.2.2.2.2.2.2.2.2.2.2.1 rfl⟩

/-- C5 (counterexample): a transcript entry present before a failed
specialist retry is gone after the retry's update is merged — the failure
path stores an empty transcript and the transcript channel has no append
reducer. -/
theorem failed_retry_truncates_transcript_counterexample :
    "prior turn" ∈
      ({ initialState "q" with meeting_transcript := ["prior turn"] }
        : ResearchState).meeting_transcript
    ∧ "prior turn" ∉
      (applyUpdate { initialState "q" with meeting_transcript := ["prior turn"] }
        (virtual_lab_wetlab_node
          { initialState "q" with meeting_transcript := ["prior turn"] }
          (Except.error "timeout"))).meeting_transcript :=
  ⟨by decide, by decide⟩

/-- C5 (amended): node executions whose updates omit `meeting_transcript`
(the classifier on both paths, the human-review node) leave prior transcript
content intact, but every specialist execution replaces the transcript —
a failed execution resets it to empty and a successful one overwrites it
with the new meeting result. -/
theorem transcript_preservation_by_node (s : ResearchState)
    (r : Except String String) (e : String) :
    (applyUpdate s (classify_question_node s r)).meeting_transcript
        = s.meeting_transcript
    ∧ (applyUpdate s (human_review_node s)).meeting_transcript
        = s.meeting_transcript
    ∧ (applyUpdate s (virtual_lab_wetlab_node s (Except.error e))).meeting_transcript = []
    ∧ (applyUpdate s
        (virtual_lab_computational_node s (Except.error e))).meeting_transcript = []
    ∧ (applyUpdate s
        (virtual_lab_literature_node s (Except.error e))).meeting_transcript = []
    ∧ (applyUpdate s
        (virtual_lab_general_node s (Except.error e))).meeting_transcript = []
    ∧ (∀ res, (applyUpdate s
        (virtual_lab_wetlab_node s (Except.ok res))).meeting_transcript
          = transcript_of_result res)
    ∧ (∀ res, (applyUpdate s
        (virtual_lab_computational_node s (Except.ok res))).meeting_transcript
          = transcript_of_result res)
    ∧ (∀ res, (applyUpdate s
        (virtual_lab_literature_node s (Except.ok res))).meeting_transcript
          = transcript_of_result res)
    ∧ (∀ res, (applyUpdate s
        (virtual_lab_general_node s (Except.ok res))).meeting_transcript
          = transcript_of_result res) := by
  refine ⟨?_, rfl, rfl, rfl, rfl, rfl,
    fun res => rfl, fun res => rfl, fun res => rfl, fun res => rfl⟩
  cases r <;> rfl

end VirtualLab
